import Mathlib

/-!
Verification development for the TCP flow-forensics scripts of the
repository (frame-analysis-examples).  The Python sources are shallowly
embedded: Python dicts become association lists, Python sets become
Finsets, floats become rationals (so float tolerance claims are settled
exactly), and each per-packet mutation becomes a pure state-transition
function.  One deviation is documented where it occurs: comparisons of a
floating standard deviation against a threshold are embedded as the
equivalent comparison of the variance against the squared threshold,
keeping every definition rational-valued and executable.
-/

namespace FrameAnalysis

/-! ### Association-list model of Python dicts (key type ℕ, value type ℚ) -/

/-- Lookup in a dict modelled as an association list. -/
def dlookup (d : List (ℕ × ℚ)) (k : ℕ) : Option ℚ :=
  (d.find? (fun p => p.1 = k)).map Prod.snd

/-- Python `del d[k]` / removal of a key. -/
def derase (d : List (ℕ × ℚ)) (k : ℕ) : List (ℕ × ℚ) :=
  d.filter (fun p => p.1 ≠ k)

/-- Python `d[k] = v` (insert or replace). -/
def dinsert (d : List (ℕ × ℚ)) (k : ℕ) (v : ℚ) : List (ℕ × ℚ) :=
  (k, v) :: derase d k

/-- Python `k in d`. -/
def dmem (d : List (ℕ × ℚ)) (k : ℕ) : Bool :=
  (dlookup d k).isSome

/-- Arithmetic mean of a list of rationals (`np.mean`); 0 on the empty list,
which only ever arises behind the sources' own emptiness guards. -/
def listMean (l : List ℚ) : ℚ :=
  if l = [] then 0 else l.sum / l.length

/-- Maximum of a list of rationals (`np.max`); 0 on the empty list. -/
def listMax (l : List ℚ) : ℚ :=
  l.foldr max 0

/-- Population variance of a list of rationals.  The sources compare
`np.std(l) > t`; we embed that comparison as `listVar l > t^2`, which is
equivalent for `t ≥ 0` and keeps the definition rational-valued. -/
def listVar (l : List ℚ) : ℚ :=
  if l = [] then 0 else (l.map (fun x => (x - listMean l) * (x - listMean l))).sum / l.length

/-! ### Endpoints and flow-key canonicalization

Source: `analyze_and_generate_report.py` `main` (session dedup) and
`pcap_analyzer_v5.py` `TrafficAnalyzer.get_stream_id`.  An endpoint
`(ip, port)` is encoded as a pair of naturals; Python's lexicographic
tuple comparison becomes `epLt`. -/

/-- An endpoint: (address, port), each encoded as a natural number. -/
abbrev Endpoint := ℕ × ℕ

/-- A directional flow key `(src endpoint, dst endpoint)` — the 4-tuple
`(src_ip, sport, dst_ip, dport)` of the sources. -/
abbrev DKey := Endpoint × Endpoint

/-- Python lexicographic `<` on endpoint tuples. -/
def epLt (a b : Endpoint) : Prop :=
  a.1 < b.1 ∨ (a.1 = b.1 ∧ a.2 < b.2)

instance (a b : Endpoint) : Decidable (epLt a b) := by
  unfold epLt; infer_instance

/-- Session canonicalization from `main` of `analyze_and_generate_report.py`:
if `(src_ip, sport) < (dst_ip, dport)` keep the key as is, else swap the
endpoints. -/
def canonSessionKey (k : DKey) : DKey :=
  if epLt k.1 k.2 then (k.1, k.2) else (k.2, k.1)

/-- `TrafficAnalyzer.get_stream_id` of `pcap_analyzer_v5.py`: the stream id is
the sorted pair of endpoints and the direction is 0 iff the source endpoint
is the smaller one.  `sorted` on a two-element list keeps the order unless
the second element is strictly smaller. -/
def get_stream_id (src dst : Endpoint) : DKey × ℕ :=
  let endpoints : DKey := if epLt dst src then (dst, src) else (src, dst)
  (endpoints, if src = endpoints.1 then 0 else 1)

/-- The unordered endpoint pair underlying a directional key. -/
def unorderedPair (k : DKey) : Sym2 Endpoint :=
  Sym2.mk k

/-! ### Diagnostic scorer of `analyze_and_generate_report.py`
(`calculate_probabilities`, lines 208–256). -/

/-- The per-direction flow metrics of `analyze_and_generate_report.py`
(`class FlowMetrics`), restricted to the fields `calculate_probabilities`
reads.  `win_ts` duplicates `wins`/`timestamps` and is omitted. -/
structure FMReportStats where
  count : ℕ
  retrans : ℕ
  rto_cnt : ℕ
  wins : List ℚ
  rtt_samples : List ℚ
deriving DecidableEq

/-- MIN_RTT_SAMPLES configuration constant. -/
def MIN_RTT_SAMPLES : ℕ := 3

/-- RTT_JITTER_THRESH configuration constant (seconds). -/
def RTT_JITTER_THRESH : ℚ := 5 / 100

/-- Normalization step of `calculate_probabilities` (lines 247–256): below
the 0.001 threshold return the fixed default triple (0.33, 0.33, 0.34),
else divide each score by the total. -/
def reportNormalize (sc sn ss : ℚ) : ℚ × ℚ × ℚ :=
  let total := sc + sn + ss
  if total < 1 / 1000 then (33 / 100, 33 / 100, 34 / 100)
  else (sc / total, sn / total, ss / total)

/-- Result of `calculate_probabilities`: the diagnosis triple followed by
`rtt_avg`, `rtt_max`, the rtt variance (embedding of `rtt_std`, see
`listVar`) and `avg_win`. -/
structure DiagResult where
  p_c : ℚ
  p_n : ℚ
  p_s : ℚ
  rtt_avg : ℚ
  rtt_max : ℚ
  rtt_var : ℚ
  avg_win : ℚ
deriving DecidableEq

/-- `calculate_probabilities` of `analyze_and_generate_report.py`.  The
comparison `rtt_std > RTT_JITTER_THRESH` of the source is embedded as
`rtt_var > RTT_JITTER_THRESH * RTT_JITTER_THRESH` (equivalent, since the
threshold is positive and `std = sqrt var`). -/
def calculate_probabilities (fm : FMReportStats) : DiagResult :=
  let avg_win := if fm.wins ≠ [] then listMean fm.wins else 0
  let rtt_avg := if MIN_RTT_SAMPLES ≤ fm.rtt_samples.length then listMean fm.rtt_samples else 0
  let rtt_max := if MIN_RTT_SAMPLES ≤ fm.rtt_samples.length then listMax fm.rtt_samples else 0
  let rtt_var := if MIN_RTT_SAMPLES ≤ fm.rtt_samples.length then listVar fm.rtt_samples else 0
  let score_client : ℚ := if avg_win < 500 ∧ 10 < fm.count then 2 / 10 else 0
  let score_server₁ : ℚ := if avg_win < 500 ∧ 10 < fm.count then 6 / 10 else 0
  let retransScore : ℚ := if 0 < fm.retrans then (fm.retrans : ℚ) / (fm.count : ℚ) else 0
  let score_network₁ : ℚ := retransScore * 10
  let score_server₂ : ℚ := retransScore * 2
  let score_network₂ : ℚ := if 0 < fm.rto_cnt then (fm.rto_cnt : ℚ) * (5 / 10) else 0
  let score_network₃ : ℚ := if RTT_JITTER_THRESH * RTT_JITTER_THRESH < rtt_var then 1 else 0
  let score_network := score_network₁ + score_network₂ + score_network₃
  let score_server := score_server₁ + score_server₂
  let t := reportNormalize score_client score_network score_server
  ⟨t.1, t.2.1, t.2.2, rtt_avg, rtt_max, rtt_var, avg_win⟩

/-- Fallible variant of `calculate_probabilities`: returns `none` exactly
where the Python code would raise, namely the `ZeroDivisionError` of
`fm.retrans / fm.count` when the retransmission branch is entered with
`count = 0`.  Everywhere else it agrees with `calculate_probabilities`
(all other divisions are guarded by the source itself). -/
def calculate_probabilitiesChecked (fm : FMReportStats) : Option DiagResult :=
  if 0 < fm.retrans ∧ fm.count = 0 then none
  else some (calculate_probabilities fm)

/-! ### Diagnostic scorer of `tcp_professional_report.py`
(`compute_flow_metrics`, lines 32–90). -/

/-- The per-stream stats dict of `tcp_professional_report.py` restricted to
the fields `compute_flow_metrics` reads.  `seq_ack_time` is the list of
(send ts, ack ts) pairs. -/
structure ProStats where
  wins : List ℚ
  seq_ack_time : List (ℚ × ℚ)
  retrans : ℕ
  rto : ℕ
  cont_retrans : ℕ
deriving DecidableEq

/-- Normalization step of `compute_flow_metrics` (lines 74–80): divide by
the total when positive, else the uniform 1/3 triple. -/
def proNormalize (pc pn ps : ℚ) : ℚ × ℚ × ℚ :=
  let total := pc + pn + ps
  if 0 < total then (pc / total, pn / total, ps / total)
  else (1 / 3, 1 / 3, 1 / 3)

/-- Result record of `compute_flow_metrics`. -/
structure ProMetrics where
  avg_win : ℚ
  rtt_avg : ℚ
  rtt_max : ℚ
  rtt_jitter_var : ℚ
  client : ℚ
  network : ℚ
  server : ℚ
deriving DecidableEq

/-- `compute_flow_metrics` of `tcp_professional_report.py`.  As for
`calculate_probabilities`, the comparison `rtt_jitter > 0.03` is embedded
on the variance as `rtt_jitter_var > 0.03 * 0.03`. -/
def compute_flow_metrics (s : ProStats) : ProMetrics :=
  let avg_win := if s.wins ≠ [] then listMean s.wins else 0
  let rtt_list := s.seq_ack_time.map (fun p => p.2 - p.1)
  let rtt_avg := if rtt_list ≠ [] then listMean rtt_list else 0
  let rtt_max := if rtt_list ≠ [] then listMax rtt_list else 0
  let rtt_jitter_var := if rtt_list ≠ [] then listVar rtt_list else 0
  let rto_w : ℚ := 45 / 100
  let cont_retrans_w : ℚ := 2 / 10
  let retrans_w : ℚ := 15 / 100
  let win_w : ℚ := 1 / 10
  let rtt_w : ℚ := 1 / 10
  let winHit := avg_win ≠ 0 ∧ avg_win < 200
  let pc₀ : ℚ := if winHit then win_w else 0
  let pn₀ : ℚ := if winHit then win_w * (4 / 10) else 0
  let ps₀ : ℚ := if winHit then win_w * (2 / 10) else 0
  let pn₁ := pn₀ + (s.rto : ℚ) * rto_w
  let pc₁ := pc₀ + (s.rto : ℚ) * rto_w * (4 / 10)
  let ps₁ := ps₀ + (s.rto : ℚ) * rto_w * (2 / 10)
  let pn₂ := pn₁ + (s.retrans : ℚ) * retrans_w
  let pc₂ := pc₁ + (s.retrans : ℚ) * retrans_w * (4 / 10)
  let ps₂ := ps₁ + (s.retrans : ℚ) * retrans_w * (2 / 10)
  let pn₃ := pn₂ + (s.cont_retrans : ℚ) * cont_retrans_w
  let pc₃ := pc₂ + (s.cont_retrans : ℚ) * cont_retrans_w * (3 / 10)
  let ps₃ := ps₂ + (s.cont_retrans : ℚ) * cont_retrans_w * (1 / 10)
  let jitterHit := (3 / 100 : ℚ) * (3 / 100) < rtt_jitter_var
  let pn₄ := if jitterHit then pn₃ + rtt_w else pn₃
  let pc₄ := if jitterHit then pc₃ + rtt_w * (4 / 10) else pc₃
  let ps₄ := if jitterHit then ps₃ + rtt_w * (2 / 10) else ps₃
  let t := proNormalize pc₄ pn₄ ps₄
  ⟨avg_win, rtt_avg, rtt_max, rtt_jitter_var, t.1, t.2.1, t.2.2⟩

/-! ### Decoded TCP segments

The common `Segment` record every script consumes after frame decoding:
timestamp, endpoints, seq/ack numbers, the four flag bits, advertised
window, payload length. -/

/-- A decoded TCP segment. -/
structure Seg where
  src : Endpoint
  dst : Endpoint
  ts : ℚ
  seq : ℕ
  ack : ℕ
  synFlag : Bool
  ackFlag : Bool
  finFlag : Bool
  rstFlag : Bool
  win : ℕ
  payloadLen : ℕ
deriving DecidableEq

/-! ### `pcap_analyzer_v4.py`: FlowMetrics, the per-packet analyzers and the
`StreamAnalyzer.process_packet` pipeline. -/

/-- `FlowMetrics` of `pcap_analyzer_v4.py` (the endpoint identification
fields are the association-list key and are not duplicated here). -/
structure FlowV4 where
  packet_count : ℕ := 0
  byte_count : ℕ := 0
  syn_count : ℕ := 0
  syn_ack_count : ℕ := 0
  fin_count : ℕ := 0
  rst_count : ℕ := 0
  unacked_packets : List (ℕ × ℚ) := []
  rtt_samples : List ℚ := []
  last_packet_ts : ℚ := 0
  jitter_samples : List ℚ := []
  retransmissions : ℕ := 0
  out_of_order : ℕ := 0
  zero_window_count : ℕ := 0
  seen_seqs : Finset ℕ := ∅
  max_seq : ℕ := 0
deriving DecidableEq

/-- `BasicStatsAnalyzer.process`: packet/byte counters and flag counts.
`pkt_len` is the wire length of the frame; the claims never read it, so the
caller passes the payload length as a stand-in lower bound. -/
def basicStatsProcess (flow : FlowV4) (g : Seg) (pkt_len : ℕ) : FlowV4 :=
  let flow := { flow with
    packet_count := flow.packet_count + 1
    byte_count := flow.byte_count + pkt_len }
  let flow :=
    if g.synFlag then
      if g.ackFlag then { flow with syn_ack_count := flow.syn_ack_count + 1 }
      else { flow with syn_count := flow.syn_count + 1 }
    else flow
  let flow := if g.finFlag then { flow with fin_count := flow.fin_count + 1 } else flow
  if g.rstFlag then { flow with rst_count := flow.rst_count + 1 } else flow

/-- `RTTAnalyzer.process` of `pcap_analyzer_v4.py` (lines 108–146): register
the expected ACK of a data segment, but only when its start seq has not
been seen before (Karn's rule, line 119), then the inter-arrival jitter
bookkeeping. -/
def rttAnalyzerProcess (flow : FlowV4) (g : Seg) : FlowV4 :=
  let flow :=
    if 0 < g.payloadLen ∧ g.seq ∉ flow.seen_seqs then
      { flow with unacked_packets := dinsert flow.unacked_packets (g.seq + g.payloadLen) g.ts }
    else flow
  let flow :=
    if 0 < flow.last_packet_ts ∧ g.ts - flow.last_packet_ts < 1 then
      { flow with jitter_samples := flow.jitter_samples ++ [g.ts - flow.last_packet_ts] }
    else flow
  { flow with last_packet_ts := g.ts }

/-- `AnomalyDetector.process` of `pcap_analyzer_v4.py` (lines 152–173):
zero-window counting, exact-set retransmission detection, the out-of-order
test, and the high-water mark update.  Note that the out-of-order test
(line 168) reads `seen_seqs` after the current seq has been inserted. -/
def anomalyDetectorProcess (flow : FlowV4) (g : Seg) : FlowV4 :=
  let flow :=
    if g.win = 0 ∧ ¬g.rstFlag then
      { flow with zero_window_count := flow.zero_window_count + 1 }
    else flow
  if 0 < g.payloadLen then
    let flow :=
      if g.seq ∈ flow.seen_seqs then
        { flow with retransmissions := flow.retransmissions + 1 }
      else
        { flow with seen_seqs := insert g.seq flow.seen_seqs }
    let flow :=
      if g.seq < flow.max_seq ∧ g.seq ∉ flow.seen_seqs then
        { flow with out_of_order := flow.out_of_order + 1 }
      else flow
    if flow.max_seq < g.seq then { flow with max_seq := g.seq } else flow
  else flow

/-- The global flow table of `pcap_analyzer_v4.py`: directional key →
`FlowMetrics`, modelled as an association list. -/
abbrev FlowTableV4 := List (DKey × FlowV4)

/-- Lookup of a flow by its directional key. -/
def lookupFlowV4 (st : FlowTableV4) (k : DKey) : Option FlowV4 :=
  (st.find? (fun p => p.1 = k)).map Prod.snd

/-- A fresh `FlowMetrics` object (all fields at their initializers). -/
def initFlowV4 : FlowV4 := {}

/-- The flow at a key, defaulting to a fresh `FlowMetrics`. -/
def flowAtV4 (st : FlowTableV4) (k : DKey) : FlowV4 :=
  (lookupFlowV4 st k).getD initFlowV4

/-- Point update of one flow in the table. -/
def updateFlowV4 (st : FlowTableV4) (k : DKey) (f : FlowV4 → FlowV4) : FlowTableV4 :=
  st.map (fun p => if p.1 = k then (p.1, f p.2) else p)

/-- Create a flow entry if absent (`if flow_key not in state.flows: ...`). -/
def ensureFlowV4 (st : FlowTableV4) (k : DKey) : FlowTableV4 :=
  if (lookupFlowV4 st k).isSome then st else st ++ [(k, initFlowV4)]

/-- `StreamAnalyzer.process_packet` of `pcap_analyzer_v4.py` (lines 184–250),
after frame decoding: create both directional flows, run the basic stats on
the forward flow, resolve a pending ACK against the reverse flow (RTT
sample, lines 233–239), then run `RTTAnalyzer.process` and
`AnomalyDetector.process` on the forward flow.  The Python mutations are
replayed as sequential point updates of the table, which also reproduces
the aliasing behaviour when the two directional keys coincide. -/
def processPacketV4 (st : FlowTableV4) (g : Seg) : FlowTableV4 :=
  let fk : DKey := (g.src, g.dst)
  let rk : DKey := (g.dst, g.src)
  let st := ensureFlowV4 st fk
  let st := ensureFlowV4 st rk
  let st := updateFlowV4 st fk (fun f => basicStatsProcess f g g.payloadLen)
  let st :=
    if g.ackFlag ∧ dmem (flowAtV4 st rk).unacked_packets g.ack then
      updateFlowV4 st rk (fun f =>
        let sent := (dlookup f.unacked_packets g.ack).getD 0
        let f := { f with unacked_packets := derase f.unacked_packets g.ack }
        let rtt := g.ts - sent
        if 0 < rtt ∧ rtt < 5 then { f with rtt_samples := f.rtt_samples ++ [rtt] } else f)
    else st
  let st := updateFlowV4 st fk (fun f => rttAnalyzerProcess f g)
  updateFlowV4 st fk (fun f => anomalyDetectorProcess f g)

/-- A whole capture run of `pcap_analyzer_v4.py` over an ordered segment
list. -/
def runV4 (segs : List Seg) : FlowTableV4 :=
  segs.foldl processPacketV4 []

/-! ### `analyze_and_generate_report.py`: the `analyze_pcap` per-packet loop
(lines 111–202). -/

/-- `FlowMetrics` of `analyze_and_generate_report.py` (the fields the loop
mutates; `win_ts` duplicates `wins`/`timestamps` and is omitted). -/
structure FMReport where
  count : ℕ := 0
  payload_bytes : ℕ := 0
  retrans : ℕ := 0
  rto_cnt : ℕ := 0
  cont_retrans : ℕ := 0
  small_win_cnt : ℕ := 0
  wins : List ℕ := []
  timestamps : List ℚ := []
  rtt_samples : List ℚ := []
  seen_seqs : Finset ℕ := ∅
  last_seq : Option ℕ := none
  max_seq : ℕ := 0
deriving DecidableEq

/-- A fresh `FlowMetrics` of the report script. -/
def initFMReport : FMReport := {}

/-- RTO_HEURISTIC_THRESH configuration constant (seconds). -/
def RTO_HEURISTIC_THRESH : ℚ := 1

/-- Global state of `analyze_pcap`: the `flows` defaultdict and the
`unacked_packets` defaultdict of dicts. -/
structure ReportState where
  flows : List (DKey × FMReport) := []
  unacked_packets : List (DKey × List (ℕ × ℚ)) := []
deriving DecidableEq

/-- First-occurrence lookup in the `flows` defaultdict, defaulting to a
fresh `FlowMetrics`. -/
def fmGet : List (DKey × FMReport) → DKey → FMReport
  | [], _ => initFMReport
  | (k', v) :: t, k => if k' = k then v else fmGet t k

/-- defaultdict read-modify-write on `flows` (`flows[k] = f(flows[k])`,
creating a fresh entry if absent). -/
def fmUpdate : List (DKey × FMReport) → DKey → (FMReport → FMReport) →
    List (DKey × FMReport)
  | [], k, f => [(k, f initFMReport)]
  | (k', v) :: t, k, f =>
    if k' = k then (k', f v) :: t else (k', v) :: fmUpdate t k f

/-- First-occurrence lookup in the `unacked_packets` dict of dicts;
`unacked_packets.get(key, {})` — a plain `.get` defaulting to empty. -/
def ulistGet : List (DKey × List (ℕ × ℚ)) → DKey → List (ℕ × ℚ)
  | [], _ => []
  | (k', v) :: t, k => if k' = k then v else ulistGet t k

/-- defaultdict read-modify-write on `unacked_packets`. -/
def ulistUpdate : List (DKey × List (ℕ × ℚ)) → DKey →
    (List (ℕ × ℚ) → List (ℕ × ℚ)) → List (DKey × List (ℕ × ℚ))
  | [], k, f => [(k, f [])]
  | (k', v) :: t, k, f =>
    if k' = k then (k', f v) :: t else (k', v) :: ulistUpdate t k f

/-- The flow stored for a key, or a fresh one (defaultdict semantics). -/
def reportFlowAt (st : ReportState) (k : DKey) : FMReport :=
  fmGet st.flows k

/-- defaultdict-style read-modify-write of one flow. -/
def reportUpdateFlow (st : ReportState) (k : DKey) (f : FMReport → FMReport) :
    ReportState :=
  { st with flows := fmUpdate st.flows k f }

/-- The pending-ACK dict for a key. -/
def reportUnackedAt (st : ReportState) (k : DKey) : List (ℕ × ℚ) :=
  ulistGet st.unacked_packets k

/-- defaultdict-style read-modify-write of one pending-ACK dict. -/
def reportUpdateUnacked (st : ReportState) (k : DKey)
    (f : List (ℕ × ℚ) → List (ℕ × ℚ)) : ReportState :=
  { st with unacked_packets := ulistUpdate st.unacked_packets k f }

/-- The element before the last of a list (`timestamps[-2]`), 0 as the
unreachable default (the source guards with `len(fm.timestamps) > 1`). -/
def secondLast (l : List ℚ) : ℚ :=
  (l.reverse.drop 1).headD 0

/-- One iteration of the `analyze_pcap` loop of
`analyze_and_generate_report.py` (lines 111–202), after frame decoding:
per-flow counters, the RTT resolve (lines 156–163, which pops only the
exactly matching expected-ack key), the unconditional pending-ACK
registration for data segments (lines 166–168 — no Karn filtering), the
retransmission/RTO heuristics with the keep-alive exemption (lines
172–194), and the small-window counter (line 198). -/
def analyzeStep (st : ReportState) (g : Seg) : ReportState :=
  let fk : DKey := (g.src, g.dst)
  let rk : DKey := (g.dst, g.src)
  let st := reportUpdateFlow st fk (fun fm =>
    { fm with
      count := fm.count + 1
      timestamps := fm.timestamps ++ [g.ts]
      wins := fm.wins ++ [g.win]
      payload_bytes := fm.payload_bytes + g.payloadLen })
  let st :=
    if g.ackFlag ∧ dmem (reportUnackedAt st rk) g.ack then
      let sent := (dlookup (reportUnackedAt st rk) g.ack).getD 0
      let st := reportUpdateUnacked st rk (fun d => derase d g.ack)
      let rtt := g.ts - sent
      if 0 < rtt ∧ rtt < 10 then
        reportUpdateFlow st rk (fun fm => { fm with rtt_samples := fm.rtt_samples ++ [rtt] })
      else st
    else st
  let st :=
    if 0 < g.payloadLen then
      reportUpdateUnacked st fk (fun d => dinsert d (g.seq + g.payloadLen) g.ts)
    else st
  let st :=
    if 0 < g.payloadLen then
      reportUpdateFlow st fk (fun fm =>
        let fm :=
          if g.payloadLen ≤ 1 ∧ g.ackFlag then fm
          else if g.seq ∈ fm.seen_seqs then
            let fm := { fm with retrans := fm.retrans + 1 }
            let fm :=
              if fm.last_seq = some g.seq then
                { fm with cont_retrans := fm.cont_retrans + 1 }
              else fm
            if 1 < fm.timestamps.length ∧
                RTO_HEURISTIC_THRESH < g.ts - secondLast fm.timestamps then
              { fm with rto_cnt := fm.rto_cnt + 1 }
            else fm
          else fm
        { fm with
          seen_seqs := insert g.seq fm.seen_seqs
          last_seq := some g.seq
          max_seq := max fm.max_seq g.seq })
    else st
  if g.win < 200 ∧ ¬g.synFlag ∧ ¬g.rstFlag then
    reportUpdateFlow st fk (fun fm => { fm with small_win_cnt := fm.small_win_cnt + 1 })
  else st

/-- A whole `analyze_pcap` run over an ordered segment list. -/
def analyzeRun (segs : List Seg) : ReportState :=
  segs.foldl analyzeStep {}

/-! ### `pcap_analyzer_v9.py`: `FlowMetrics`, `ForensicEngine._analyze_packet`
and the per-flow part of `ForensicEngine.process_pcap`. -/

/-- `FlowMetrics` of `pcap_analyzer_v9.py`, restricted to the fields the
analysis mutates or reads (the negotiation fields `mss`, `win_scale_*`,
`sack_perm`, `timestamps` are set by the option parser and read by nothing
the claims concern; they are omitted). -/
structure FlowV9 where
  packet_count : ℕ := 0
  start_ts : ℚ := 0
  end_ts : ℚ := 0
  handshake_rtt : ℚ := 0
  rtt_samples : List ℚ := []
  retrans_fast : ℕ := 0
  retrans_rto : ℕ := 0
  zero_win_events : ℕ := 0
  seq_tracker : List (ℕ × ℚ) := []
deriving DecidableEq

/-- A fresh v9 flow. -/
def initFlowV9 : FlowV9 := {}

/-- `FlowMetrics.avg_rtt_ms` of `pcap_analyzer_v9.py`. -/
def avg_rtt_ms (f : FlowV9) : ℚ :=
  if f.rtt_samples = [] then 0
  else (f.rtt_samples.sum / f.rtt_samples.length) * 1000

/-- `ForensicConstants.RTO_THRESHOLD_MULTIPLIER`. -/
def RTO_THRESHOLD_MULTIPLIER : ℚ := 2

/-- `ForensicConstants.MIN_RTO_MS`, in milliseconds. -/
def MIN_RTO_MS : ℚ := 200

/-- The `packet_count` / `start_ts` / `end_ts` bookkeeping done inline in
`process_pcap` (lines 163–166) followed by the handshake-RTT estimate of
`_analyze_packet` (lines 174–186). -/
def v9Pre (f : FlowV9) (g : Seg) : FlowV9 :=
  let f := { f with packet_count := f.packet_count + 1 }
  let f := if f.start_ts = 0 then { f with start_ts := g.ts } else f
  let f := { f with end_ts := g.ts }
  if g.synFlag ∧ g.ackFlag ∧ 2 ≤ f.packet_count then
    { f with handshake_rtt := (g.ts - f.start_ts) * 1000 }
  else f

/-- The retransmission forensics of `_analyze_packet` (lines 188–211):
`seq_tracker` holds first-observation timestamps, and a repeated start seq
is classified RTO vs fast by the delta against the baseline. -/
def v9Retrans (f : FlowV9) (g : Seg) : FlowV9 :=
  if 0 < g.payloadLen then
    match dlookup f.seq_tracker g.seq with
    | some original_ts =>
      let delta := g.ts - original_ts
      let baseline₀ := avg_rtt_ms f / 1000
      let baseline := if baseline₀ = 0 then 1 / 10 else baseline₀
      if baseline * RTO_THRESHOLD_MULTIPLIER < delta ∧ MIN_RTO_MS / 1000 < delta then
        { f with retrans_rto := f.retrans_rto + 1 }
      else
        { f with retrans_fast := f.retrans_fast + 1 }
    | none => { f with seq_tracker := dinsert f.seq_tracker g.seq g.ts }
  else f

/-- The flow-control section of `_analyze_packet` (lines 233–235): the
zero-window count, with no RST exclusion. -/
def v9ZeroWin (f : FlowV9) (g : Seg) : FlowV9 :=
  if g.win = 0 then { f with zero_win_events := f.zero_win_events + 1 } else f

/-- One packet of a v9 flow: the bookkeeping and handshake estimate, the
retransmission forensics, and the zero-window count, in source order (the
RTT section of the source, lines 213–231, is a no-op — every branch is
`pass` — and contributes nothing). -/
def processV9 (f : FlowV9) (g : Seg) : FlowV9 :=
  v9ZeroWin (v9Retrans (v9Pre f g) g) g

/-- A single-flow v9 run (all segments of one canonical flow, as
`process_pcap` would feed them to that flow's `FlowMetrics`). -/
def runFlowV9 (segs : List Seg) : FlowV9 :=
  segs.foldl processV9 initFlowV9

/-! ### `pcap_analyzer_v10.py`: `StreamMetrics` and the per-flow part of
`ForensicsEngine.analyze_packet` (lines 196–261). -/

/-- `StreamMetrics` of `pcap_analyzer_v10.py`, restricted to the fields the
per-packet analysis mutates (negotiation fields omitted as for v9). -/
structure FlowV10 where
  start_ts : ℚ := 0
  last_ts : ℚ := 0
  packets : ℕ := 0
  bytes_payload : ℕ := 0
  syn_seen : Bool := false
  syn_ack_seen : Bool := false
  fin_seen : Bool := false
  rst_seen : Bool := false
  rtt_samples : List ℚ := []
  retrans_fast : ℕ := 0
  retrans_rto : ℕ := 0
  zero_wins : ℕ := 0
  next_seq0 : ℕ := 0
  next_seq1 : ℕ := 0
  unacked_segments0 : List (ℕ × ℚ) := []
  unacked_segments1 : List (ℕ × ℚ) := []
deriving DecidableEq

/-- A fresh v10 stream. -/
def initFlowV10 : FlowV10 := {}

/-- `StreamMetrics.avg_rtt`. -/
def avgRttV10 (f : FlowV10) : ℚ :=
  if f.rtt_samples = [] then 0 else f.rtt_samples.sum / f.rtt_samples.length

/-- `next_seq[direction]`. -/
def nextSeqAt (f : FlowV10) (dir : ℕ) : ℕ :=
  if dir = 0 then f.next_seq0 else f.next_seq1

/-- `unacked_segments[direction]`. -/
def unackedSegAt (f : FlowV10) (dir : ℕ) : List (ℕ × ℚ) :=
  if dir = 0 then f.unacked_segments0 else f.unacked_segments1

/-- Write `next_seq[direction]`. -/
def setNextSeq (f : FlowV10) (dir : ℕ) (v : ℕ) : FlowV10 :=
  if dir = 0 then { f with next_seq0 := v } else { f with next_seq1 := v }

/-- Write `unacked_segments[direction]`. -/
def setUnackedSeg (f : FlowV10) (dir : ℕ) (d : List (ℕ × ℚ)) : FlowV10 :=
  if dir = 0 then { f with unacked_segments0 := d } else { f with unacked_segments1 := d }

/-- Flag/counter bookkeeping of `ForensicsEngine.analyze_packet` of
`pcap_analyzer_v10.py` (lines 196–218). -/
def v10Flags (f : FlowV10) (g : Seg) : FlowV10 :=
  let f := { f with last_ts := g.ts, packets := f.packets + 1 }
  let f := { f with bytes_payload := f.bytes_payload + g.payloadLen }
  let f :=
    if g.synFlag then
      if g.ackFlag then { f with syn_ack_seen := true } else { f with syn_seen := true }
    else f
  let f := if g.rstFlag then { f with rst_seen := true } else f
  if g.finFlag then { f with fin_seen := true } else f

/-- Window analysis of `analyze_packet` (lines 220–222): zero-window count
with RST exclusion. -/
def v10ZeroWin (f : FlowV10) (g : Seg) : FlowV10 :=
  if g.win = 0 ∧ ¬g.rstFlag then { f with zero_wins := f.zero_wins + 1 } else f

/-- Watermark-based retransmission forensics of `analyze_packet`
(lines 224–249). -/
def v10Retrans (f : FlowV10) (dir : ℕ) (g : Seg) : FlowV10 :=
  if 0 < g.payloadLen then
    let expected := nextSeqAt f dir
    if expected ≠ 0 ∧ g.seq < expected then
      if f.rtt_samples ≠ [] then
        let avg_rtt := avgRttV10 f
        if 0 < avg_rtt ∧ avg_rtt * 2 < g.ts - f.start_ts then
          { f with retrans_rto := f.retrans_rto + 1 }
        else
          { f with retrans_fast := f.retrans_fast + 1 }
      else
        { f with retrans_fast := f.retrans_fast + 1 }
    else
      let f := setNextSeq f dir (g.seq + g.payloadLen)
      setUnackedSeg f dir (dinsert (unackedSegAt f dir) (g.seq + g.payloadLen) g.ts)
  else f

/-- RTT resolve of `analyze_packet` against the opposite direction
(lines 251–261). -/
def v10Rtt (f : FlowV10) (dir : ℕ) (g : Seg) : FlowV10 :=
  if g.ackFlag then
    match dlookup (unackedSegAt f (1 - dir)) g.ack with
    | some sent_ts =>
      let rtt := (g.ts - sent_ts) * 1000
      let f :=
        if 0 < rtt ∧ rtt < 5000 then { f with rtt_samples := f.rtt_samples ++ [rtt] }
        else f
      setUnackedSeg f (1 - dir) (derase (unackedSegAt f (1 - dir)) g.ack)
    | none => f
  else f

/-- The per-flow body of `ForensicsEngine.analyze_packet` of
`pcap_analyzer_v10.py` (lines 196–261), given the already-resolved flow and
direction, in source order. -/
def analyzePacketV10 (f : FlowV10) (dir : ℕ) (g : Seg) : FlowV10 :=
  v10Rtt (v10Retrans (v10ZeroWin (v10Flags f g) g) dir g) dir g

/-! ### Per-IP aggregation

`generate_plot` of `analyze_and_generate_report.py` (lines 325–332) folds
the per-flow diagnosis rows into `ip_stats`, a defaultdict created afresh
inside the function.  `analyze_tcp_dpkt_full_trend.py` does the analogous
fold (lines 136–140) into `ip_src_stats` / `ip_dst_stats`, which are
module-level defaultdicts (lines 94–95). -/

/-- A per-flow diagnosis row as `generate_plot` and the full-trend loop read
it: the two IP addresses and the diagnosis triple. -/
structure FlowRow where
  src_ip : ℕ
  dst_ip : ℕ
  p_client : ℚ
  p_network : ℚ
  p_server : ℚ
deriving DecidableEq

/-- A per-IP aggregate: summed diagnosis components plus a flow count
(the `{'c':0,'n':0,'s':0,'count':0}` default of `generate_plot`). -/
structure IpAgg where
  c : ℚ := 0
  n : ℚ := 0
  s : ℚ := 0
  count : ℕ := 0
deriving DecidableEq

/-- The zero aggregate (the defaultdict default). -/
def zeroIpAgg : IpAgg := {}

/-- Componentwise sum of aggregates. -/
def addIpAgg (a b : IpAgg) : IpAgg :=
  ⟨a.c + b.c, a.n + b.n, a.s + b.s, a.count + b.count⟩

/-- Per-IP aggregation map, IP → aggregate. -/
abbrev IpAggMap := List (ℕ × IpAgg)

/-- Read an aggregate (defaultdict semantics: zero when absent). -/
def aggGet : IpAggMap → ℕ → IpAgg
  | [], _ => zeroIpAgg
  | (k, a) :: t, ip => if k = ip then a else aggGet t ip

/-- defaultdict read-modify-write on the aggregation map
(`ip_stats[ip] = f(ip_stats[ip])`, creating the zero entry if absent). -/
def aggUpdate : IpAggMap → ℕ → (IpAgg → IpAgg) → IpAggMap
  | [], ip, f => [(ip, f zeroIpAgg)]
  | (k, a) :: t, ip, f =>
    if k = ip then (k, f a) :: t else (k, a) :: aggUpdate t ip f

/-- One row of the `generate_plot` aggregation loop: add the row's
diagnosis triple to its source IP's aggregate and bump the count. -/
def gpStep (m : IpAggMap) (row : FlowRow) : IpAggMap :=
  aggUpdate m row.src_ip (fun a =>
    ⟨a.c + row.p_client, a.n + row.p_network, a.s + row.p_server, a.count + 1⟩)

/-- The whole `generate_plot` aggregation: `ip_stats` is created afresh as
an empty defaultdict on every call, so each call folds from the empty
map. -/
def generate_plot_agg (rows : List FlowRow) : IpAggMap :=
  rows.foldl gpStep []

/-- The aggregate a given IP should receive: componentwise sums over the
rows whose source IP it is, with the matching row count. -/
def sumForIp (rows : List FlowRow) (ip : ℕ) : IpAgg :=
  ⟨((rows.filter (fun r => r.src_ip = ip)).map (fun r => r.p_client)).sum,
   ((rows.filter (fun r => r.src_ip = ip)).map (fun r => r.p_network)).sum,
   ((rows.filter (fun r => r.src_ip = ip)).map (fun r => r.p_server)).sum,
   (rows.filter (fun r => r.src_ip = ip)).length⟩

/-- One row of the `analyze_tcp_dpkt_full_trend.py` source-IP aggregation
loop (lines 136–140): add the row's triple into `ip_src_stats[src]['prob']`. -/
def ftSrcStep (m : IpAggMap) (row : FlowRow) : IpAggMap :=
  aggUpdate m row.src_ip (fun a =>
    ⟨a.c + row.p_client, a.n + row.p_network, a.s + row.p_server, a.count⟩)

/-- Executing the full-trend source-IP aggregation loop once, starting from
whatever the module-level `ip_src_stats` currently holds. -/
def ftSrcLoop (m : IpAggMap) (rows : List FlowRow) : IpAggMap :=
  rows.foldl ftSrcStep m

/-! ### The claim's retransmission-classification rule (C6)

Modelled from the spec: `delta = timestamp − timeOfLastObservationOnThisFlow`,
`baseline = avgRtt` when at least 3 RTT samples exist, else a fixed fallback;
timeout-retransmission iff `delta > max(RTO_FLOOR, 2 × baseline)`.  It is
instantiated with the v9 constants (floor 0.2 s, fallback 0.1 s) so it can
be compared against `processV9`. -/

/-- The claimed timeout-vs-fast rule, to be compared with the code's. -/
def specTimeoutClass (delta : ℚ) (rttSamples : List ℚ) : Bool :=
  let baseline := if 3 ≤ rttSamples.length then listMean rttSamples else 1 / 10
  decide (max (1 / 5) (2 * baseline) < delta)

/-! ### Concrete inputs used by the counterexamples and witnesses -/

/-- Endpoint A of the synthetic streams. -/
def epA : Endpoint := (1, 10)

/-- Endpoint B of the synthetic streams. -/
def epB : Endpoint := (2, 20)

/-- A payload-bearing segment of the synthetic single-direction flow. -/
def dataSeg (sd : Bool) (ts : ℚ) (seq : ℕ) (ackF : Bool) (plen : ℕ) : Seg :=
  { src := if sd then epA else epB, dst := if sd then epB else epA,
    ts := ts, seq := seq, ack := 0,
    synFlag := false, ackFlag := ackF, finFlag := false, rstFlag := false,
    win := 65535, payloadLen := plen }

/-- A pure ACK segment of the synthetic streams. -/
def ackSeg (sd : Bool) (ts : ℚ) (ack : ℕ) : Seg :=
  { src := if sd then epA else epB, dst := if sd then epB else epA,
    ts := ts, seq := 0, ack := ack,
    synFlag := false, ackFlag := true, finFlag := false, rstFlag := false,
    win := 65535, payloadLen := 0 }

/-- The synthetic flow of claim C3: payload segments with start sequence
numbers 100, 200, 100, 300, each of payload length 100, one per second. -/
def retransStream : List Seg :=
  [dataSeg true 0 100 false 100, dataSeg true 1 200 false 100,
   dataSeg true 2 100 false 100, dataSeg true 3 300 false 100]

/-- The C4 scenario for `pcap_analyzer_v4.py`: a data segment at t = 1.000 s
with seq = 100, length 50, answered by an opposite-direction ACK of 150 at
t = 1.050 s. -/
def rttPairStream : List Seg :=
  [dataSeg true 1 100 true 50, ackSeg false (21 / 20) 150]

/-- The C4 scenario extended with a retransmitted copy of the data segment
(t = 1.200 s) and a second ACK of 150 (t = 1.250 s), fed to the
`analyze_pcap` loop of `analyze_and_generate_report.py`. -/
def rttRetransStream : List Seg :=
  [dataSeg true 1 100 true 50, ackSeg false (21 / 20) 150,
   dataSeg true (6 / 5) 100 true 50, ackSeg false (5 / 4) 150]

/-- The C5 scenario: two data segments (expected ACKs 150 and 250) followed
by one cumulative ACK of 250. -/
def staleAckStream : List Seg :=
  [dataSeg true 0 100 false 50, dataSeg true (1 / 100) 200 false 50,
   ackSeg false (1 / 20) 250]

/-- The C6 scenario for `pcap_analyzer_v9.py`: data at seq 100 (t = 0),
unrelated data at seq 300 (t = 5.0), then a retransmitted copy of seq 100
at t = 5.1. -/
def rtoClassStream : List Seg :=
  [dataSeg true 0 100 false 100, dataSeg true 5 300 false 100,
   dataSeg true (51 / 10) 100 false 100]

/-- A RST segment advertising a zero window (claim C7). -/
def rstZeroWinSeg : Seg :=
  { src := epA, dst := epB, ts := 0, seq := 0, ack := 0,
    synFlag := false, ackFlag := false, finFlag := false, rstFlag := true,
    win := 0, payloadLen := 0 }

/-- A flow whose no-signal default branch is exercised (claim C1): one
packet, no samples, no retransmissions. -/
def fmDefaultBranch : FMReportStats := ⟨1, 0, 0, [], []⟩

/-- A degenerate flow with window samples but zero RTT samples (claim C8). -/
def fmDegenerate : FMReportStats := ⟨5, 0, 0, [500, 500, 500, 500, 500], []⟩

/-- The all-zero flow (C8 witness). -/
def fmZero : FMReportStats := ⟨0, 0, 0, [], []⟩

/-- The all-empty professional-report stats dict (C8 witness). -/
def proZero : ProStats := ⟨[], [], 0, 0, 0⟩

/-- A v9 flow that has already seen seq 100 at t = 0 (C6 witness). -/
def flowV9Seen : FlowV9 := { seq_tracker := [(100, 0)] }

/-- A retransmitted copy of seq 100 at t = 1 (C6 witness). -/
def segV9Retrans : Seg := dataSeg true 1 100 false 10

/-- A v4 flow that has already observed start seq 100 (C4 witness). -/
def flowV4Seen : FlowV4 := { seen_seqs := {100}, unacked_packets := [(150, 1)] }

/-- A single diagnosis row used by the C9 counterexample. -/
def oneFlowRow : List FlowRow := [⟨1, 2, 1 / 2, 1 / 4, 1 / 4⟩]

/-- The baseline of the v9 classification heuristic (lines 201–202): the
flow's average RTT in seconds when samples exist, else the 0.1 s
fallback. -/
def v9baseline (f : FlowV9) : ℚ :=
  if avg_rtt_ms f / 1000 = 0 then 1 / 10 else avg_rtt_ms f / 1000

/-- The report-loop state after the two data segments of `staleAckStream`
(C5 witness). -/
def stTwoData : ReportState := analyzeRun (staleAckStream.take 2)

/-- The cumulative ACK of 250 closing `staleAckStream` (C5 witness). -/
def cumAckSeg : Seg := ackSeg false (1 / 20) 250

/-! ## Theorems -/

/-- Helper: the report scorer's normalization always sums to 1 — below the
threshold the fixed defaults 0.33 + 0.33 + 0.34 = 1, above it the three
quotients sum to total/total = 1. -/
theorem reportNormalize_sum (sc sn ss : ℚ) :
    (reportNormalize sc sn ss).1 + (reportNormalize sc sn ss).2.1 +
      (reportNormalize sc sn ss).2.2 = 1 := by
  unfold reportNormalize
  dsimp only
  split_ifs with h
  · norm_num
  · have ht : sc + sn + ss ≠ 0 := by
      intro h0
      rw [h0] at h
      norm_num at h
    rw [div_add_div_same, div_add_div_same, div_self ht]

/-- Helper: the professional scorer's normalization always sums to 1. -/
theorem proNormalize_sum (pc pn ps : ℚ) :
    (proNormalize pc pn ps).1 + (proNormalize pc pn ps).2.1 +
      (proNormalize pc pn ps).2.2 = 1 := by
  unfold proNormalize
  dsimp only
  split_ifs with h
  · rw [div_add_div_same, div_add_div_same, div_self (ne_of_gt h)]
  · norm_num

/-- C1 (amended): for every flow — in particular every flow with at least
one observed packet — the diagnosis triple of `calculate_probabilities`
sums exactly to 1, and so does the triple of `compute_flow_metrics`: when
the total unnormalized score passes the positivity threshold each
component is divided by the total, and otherwise a fixed default triple is
returned, namely (0.33, 0.33, 0.34) in `calculate_probabilities` and
(1/3, 1/3, 1/3) in `compute_flow_metrics`; both defaults sum to 1. -/
theorem claim1_diagnosis_sums_to_one :
    (∀ fm : FMReportStats,
      (calculate_probabilities fm).p_c + (calculate_probabilities fm).p_n +
        (calculate_probabilities fm).p_s = 1) ∧
    (∀ s : ProStats,
      (compute_flow_metrics s).client + (compute_flow_metrics s).network +
        (compute_flow_metrics s).server = 1) := by
  constructor
  · intro fm
    exact reportNormalize_sum _ _ _
  · intro s
    exact proNormalize_sum _ _ _

/-- C1 counterexample: on a one-packet flow with no signal (zero total
score), `calculate_probabilities` returns the fixed triple
(0.33, 0.33, 0.34) — not "all three components default to 1/3" as the
claim states. -/
theorem claim1_default_branch_not_one_third :
    (calculate_probabilities fmDefaultBranch).p_c = 33 / 100 ∧
    (calculate_probabilities fmDefaultBranch).p_n = 33 / 100 ∧
    (calculate_probabilities fmDefaultBranch).p_s = 34 / 100 ∧
    (calculate_probabilities fmDefaultBranch).p_c ≠ 1 / 3 ∧
    (calculate_probabilities fmDefaultBranch).p_s ≠ 1 / 3 := by
  norm_num [calculate_probabilities, reportNormalize, listMean, listVar, listMax,
    fmDefaultBranch, RTT_JITTER_THRESH, MIN_RTT_SAMPLES]

/-- C8 (amended): degenerate flows get neutral defaults and the scoring
path has no fatal error.  With fewer than `MIN_RTT_SAMPLES` RTT samples
all derived RTT statistics are 0; a degenerate flow with no samples and no
counters gets the fixed default triple — (0.33, 0.33, 0.34) from
`calculate_probabilities`, the uniform 1/3 from `compute_flow_metrics` —
and the only division the source leaves unguarded (`retrans / count`)
cannot fault on a well-formed flow, where `retrans ≤ count`. -/
theorem claim8_degenerate_defaults :
    (∀ fm : FMReportStats, fm.retrans ≤ fm.count →
      (calculate_probabilitiesChecked fm).isSome = true) ∧
    (∀ fm : FMReportStats, fm.rtt_samples.length < MIN_RTT_SAMPLES →
      (calculate_probabilities fm).rtt_avg = 0 ∧
      (calculate_probabilities fm).rtt_max = 0 ∧
      (calculate_probabilities fm).rtt_var = 0) ∧
    (∀ fm : FMReportStats, fm.rtt_samples.length < MIN_RTT_SAMPLES →
      fm.wins = [] → fm.count = 0 → fm.retrans = 0 → fm.rto_cnt = 0 →
      (calculate_probabilities fm).avg_win = 0 ∧
      (calculate_probabilities fm).p_c = 33 / 100 ∧
      (calculate_probabilities fm).p_n = 33 / 100 ∧
      (calculate_probabilities fm).p_s = 34 / 100) ∧
    (∀ s : ProStats, s.seq_ack_time = [] → s.wins = [] → s.retrans = 0 →
      s.rto = 0 → s.cont_retrans = 0 →
      (compute_flow_metrics s).rtt_avg = 0 ∧
      (compute_flow_metrics s).avg_win = 0 ∧
      (compute_flow_metrics s).client = 1 / 3 ∧
      (compute_flow_metrics s).network = 1 / 3 ∧
      (compute_flow_metrics s).server = 1 / 3) := by
  refine ⟨?_, ?_, ?_, ?_⟩
  · intro fm h
    unfold calculate_probabilitiesChecked
    rw [if_neg]
    · rfl
    · rintro ⟨h1, h2⟩
      omega
  · intro fm h
    have h3 : ¬ MIN_RTT_SAMPLES ≤ fm.rtt_samples.length := Nat.not_le_of_lt h
    refine ⟨?_, ?_, ?_⟩ <;> simp [calculate_probabilities, h3]
  · intro fm h hw hc hr ho
    have h3 : ¬ MIN_RTT_SAMPLES ≤ fm.rtt_samples.length := Nat.not_le_of_lt h
    refine ⟨?_, ?_, ?_, ?_⟩ <;>
      simp [calculate_probabilities, reportNormalize, RTT_JITTER_THRESH,
        h3, hw, hc, hr, ho] <;>
      norm_num
  · intro s hs hw hr hrto hcont
    refine ⟨?_, ?_, ?_, ?_, ?_⟩ <;>
      simp [compute_flow_metrics, proNormalize, listMean, hs, hw, hr, hrto,
        hcont] <;>
      norm_num

/-- C8 witness: the components of `claim8_degenerate_defaults` instantiated
on the all-zero degenerate flow and the all-empty professional stats. -/
theorem claim8_degenerate_defaults_witness :
    fmZero.retrans ≤ fmZero.count ∧
    (calculate_probabilitiesChecked fmZero).isSome = true ∧
    fmZero.rtt_samples.length < MIN_RTT_SAMPLES ∧
    (calculate_probabilities fmZero).rtt_var = 0 ∧
    (calculate_probabilities fmZero).p_s = 34 / 100 ∧
    (compute_flow_metrics proZero).client = 1 / 3 :=
  ⟨by decide,
   claim8_degenerate_defaults.1 fmZero (by decide),
   by decide,
   (claim8_degenerate_defaults.2.1 fmZero (by decide)).2.2,
   (claim8_degenerate_defaults.2.2.1 fmZero (by decide) (by decide) (by decide)
      (by decide) (by decide)).2.2.2,
   (claim8_degenerate_defaults.2.2.2 proZero (by decide) (by decide) (by decide)
      (by decide) (by decide)).2.2.1⟩

/-- Helper: the lexicographic endpoint order is asymmetric. -/
theorem epLt_asymm {a b : Endpoint} (h : epLt a b) : ¬ epLt b a := by
  unfold epLt at *
  omega

/-- Helper: two endpoints neither of which is below the other are equal. -/
theorem epLt_antisymm_eq {a b : Endpoint} (h1 : ¬ epLt a b) (h2 : ¬ epLt b a) :
    a = b := by
  obtain ⟨x, y⟩ := a
  obtain ⟨z, w⟩ := b
  unfold epLt at h1 h2
  simp only [Prod.mk.injEq]
  constructor <;> omega

/-- Helper: swapping the endpoints of a directional key does not change its
canonical session key. -/
theorem canonSessionKey_swap (a b : Endpoint) :
    canonSessionKey (a, b) = canonSessionKey (b, a) := by
  unfold canonSessionKey
  dsimp only
  by_cases h1 : epLt a b
  · rw [if_pos h1, if_neg (epLt_asymm h1)]
  · by_cases h2 : epLt b a
    · rw [if_neg h1, if_pos h2]
    · rw [if_neg h1, if_neg h2, epLt_antisymm_eq h1 h2]

/-- Helper: the canonical session key is sorted (its first endpoint is not
above its second). -/
theorem canonSessionKey_sorted (k : DKey) :
    ¬ epLt (canonSessionKey k).2 (canonSessionKey k).1 := by
  obtain ⟨a, b⟩ := k
  unfold canonSessionKey
  dsimp only
  split_ifs with h
  · exact epLt_asymm h
  · exact h

/-- Helper: canonicalization does not change the unordered endpoint
pair. -/
theorem unorderedPair_canon (k : DKey) :
    unorderedPair (canonSessionKey k) = unorderedPair k := by
  obtain ⟨a, b⟩ := k
  unfold canonSessionKey unorderedPair
  dsimp only
  split_ifs with h
  · rfl
  · exact @Sym2.mk_prod_swap_eq _ (a, b)

/-- Helper: on sorted keys the unordered-pair map is injective. -/
theorem unorderedPair_inj_sorted {k1 k2 : DKey}
    (h1 : ¬ epLt k1.2 k1.1) (h2 : ¬ epLt k2.2 k2.1)
    (h : unorderedPair k1 = unorderedPair k2) : k1 = k2 := by
  obtain ⟨a, b⟩ := k1
  obtain ⟨c, d⟩ := k2
  unfold unorderedPair at h
  rw [Sym2.eq_iff] at h
  dsimp only at h1 h2
  rcases h with ⟨ha, hb⟩ | ⟨ha, hb⟩
  · rw [ha, hb]
  · subst ha
    subst hb
    rw [epLt_antisymm_eq h2 h1]

/-- C2: flow-key canonicalization is direction-symmetric — both the session
dedup of `main` in `analyze_and_generate_report.py` and
`TrafficAnalyzer.get_stream_id` of `pcap_analyzer_v5.py` resolve `A→B` and
`B→A` to the same key — and the deduplicated session count over any finite
set of directional keys equals the number of distinct unordered endpoint
pairs. -/
theorem claim2_canonicalization_symmetric :
    (∀ a b : Endpoint, canonSessionKey (a, b) = canonSessionKey (b, a)) ∧
    (∀ a b : Endpoint, (get_stream_id a b).1 = (get_stream_id b a).1) ∧
    (∀ S : Finset DKey,
      (S.image canonSessionKey).card = (S.image unorderedPair).card) := by
  refine ⟨canonSessionKey_swap, ?_, ?_⟩
  · intro a b
    unfold get_stream_id
    dsimp only
    by_cases h1 : epLt a b
    · rw [if_neg (epLt_asymm h1), if_pos h1]
    · by_cases h2 : epLt b a
      · rw [if_pos h2, if_neg h1]
      · rw [if_neg h2, if_neg h1, epLt_antisymm_eq h1 h2]
  · intro S
    have himg : S.image unorderedPair =
        (S.image canonSessionKey).image unorderedPair := by
      rw [Finset.image_image]
      exact Finset.image_congr (fun k _ => (unorderedPair_canon k).symm)
    rw [himg]
    refine (Finset.card_image_of_injOn ?_).symm
    intro k1 hk1 k2 hk2 h
    rw [Finset.coe_image] at hk1 hk2
    obtain ⟨m1, _, hm1⟩ := hk1
    obtain ⟨m2, _, hm2⟩ := hk2
    refine unorderedPair_inj_sorted ?_ ?_ h
    · rw [← hm1]
      exact canonSessionKey_sorted m1
    · rw [← hm2]
      exact canonSessionKey_sorted m2

/-- C8 counterexample: a degenerate flow (zero RTT samples) is given the
triple (0.33, 0.33, 0.34) by `calculate_probabilities`, which is not the
uniform 1/3 triple the claim describes. -/
theorem claim8_degenerate_not_uniform :
    (calculate_probabilities fmDegenerate).rtt_avg = 0 ∧
    (calculate_probabilities fmDegenerate).p_n = 33 / 100 ∧
    (calculate_probabilities fmDegenerate).p_n ≠ 1 / 3 := by
  norm_num [calculate_probabilities, reportNormalize, listMean, listVar, listMax,
    fmDegenerate, RTT_JITTER_THRESH, MIN_RTT_SAMPLES]

/-- Helper: one `AnomalyDetector.process` step never changes the
out-of-order counter — the start seq is inserted into (or already present
in) `seen_seqs` before the out-of-order test reads it, so the test never
fires. -/
theorem anomaly_ooo_step (f : FlowV4) (g : Seg) :
    (anomalyDetectorProcess f g).out_of_order = f.out_of_order := by
  unfold anomalyDetectorProcess
  dsimp only
  split_ifs <;> first | rfl | simp_all

/-- Helper: folding `AnomalyDetector.process` over any segment list leaves
the out-of-order counter untouched. -/
theorem anomaly_ooo_fold (segs : List Seg) (f : FlowV4) :
    (segs.foldl anomalyDetectorProcess f).out_of_order = f.out_of_order := by
  induction segs generalizing f with
  | nil => rfl
  | cons g t ih => rw [List.foldl_cons, ih, anomaly_ooo_step]

/-- C10: in `AnomalyDetector.process` of `pcap_analyzer_v4.py` the
out-of-order counter is dead — each step preserves it (the current start
seq is in `seen_seqs` before the test `seq < max_seq and seq not in
seen_seqs` is evaluated, making it unsatisfiable), so it is 0 after
processing every possible stream from the initial state. -/
theorem claim10_out_of_order_never_increments :
    (∀ (f : FlowV4) (g : Seg),
      (anomalyDetectorProcess f g).out_of_order = f.out_of_order) ∧
    (∀ segs : List Seg,
      (segs.foldl anomalyDetectorProcess initFlowV4).out_of_order = 0) :=
  ⟨anomaly_ooo_step, fun segs => anomaly_ooo_fold segs initFlowV4⟩

/-- C3 counterexample: on the synthetic flow with start seqs
[100, 200, 100, 300] (payload length 100 each), the tracker's `max_seq`
ends at 300 — the highest start seq — not at 400 = max(seq + payloadLen)
as the claim states. -/
theorem claim3_maxseq_is_300_not_400 :
    (retransStream.foldl anomalyDetectorProcess initFlowV4).max_seq = 300 ∧
    (retransStream.foldl anomalyDetectorProcess initFlowV4).max_seq ≠ 400 := by
  decide

/-- C3 (amended): on the synthetic flow [100, 200, 100, 300] (all payload
length 100), both cited trackers report exactly 1 retransmission (the
repeated seq 100); `AnomalyDetector.process` reports exactly 0 out-of-order
events; and both end with `max_seq = 300`, the maximum start seq (the code
tracks the highest start sequence number, not seq + payloadLen). -/
theorem claim3_synthetic_flow_counts :
    (retransStream.foldl anomalyDetectorProcess initFlowV4).retransmissions = 1 ∧
    (retransStream.foldl anomalyDetectorProcess initFlowV4).out_of_order = 0 ∧
    (retransStream.foldl anomalyDetectorProcess initFlowV4).max_seq = 300 ∧
    (reportFlowAt (analyzeRun retransStream) (epA, epB)).retrans = 1 ∧
    (reportFlowAt (analyzeRun retransStream) (epA, epB)).max_seq = 300 := by
  refine ⟨by decide, by decide, by decide, ?_, ?_⟩ <;>
    norm_num [analyzeRun, analyzeStep, reportUpdateFlow, reportFlowAt,
      reportUnackedAt, reportUpdateUnacked, fmGet, fmUpdate, ulistGet,
      ulistUpdate, dlookup, derase, dinsert, dmem, secondLast, initFMReport,
      dataSeg, ackSeg, epA, epB, retransStream, List.foldl, List.find?,
      RTO_HEURISTIC_THRESH]

/-- C4 (amended): in `pcap_analyzer_v4.py` the claim holds — the data
segment at t = 1.000 s (seq 100, length 50) answered by the
opposite-direction ACK of 150 at t = 1.050 s yields exactly one RTT sample
of 0.050 s, and `RTTAnalyzer.process` never registers a pending-ACK entry
for a segment whose start seq was already observed (Karn's rule, line
119).  The `analyze_pcap` loop of `analyze_and_generate_report.py`,
however, registers pending ACKs unconditionally (see the
counterexample). -/
theorem claim4_v4_rtt_and_karn :
    (flowAtV4 (runV4 rttPairStream) (epA, epB)).rtt_samples = [1 / 20] ∧
    (∀ (f : FlowV4) (g : Seg), g.seq ∈ f.seen_seqs →
      (rttAnalyzerProcess f g).unacked_packets = f.unacked_packets) := by
  constructor
  · norm_num [runV4, processPacketV4, ensureFlowV4, lookupFlowV4, flowAtV4,
      updateFlowV4, basicStatsProcess, rttAnalyzerProcess,
      anomalyDetectorProcess, initFlowV4, dlookup, derase, dinsert, dmem,
      dataSeg, ackSeg, epA, epB, rttPairStream, List.foldl, List.find?]
  · intro f g h
    unfold rttAnalyzerProcess
    rw [if_neg (fun hc => hc.2 h)]
    dsimp only
    split_ifs <;> rfl

/-- C4 witness: Karn preservation instantiated on a flow that has already
seen start seq 100 and a fresh copy of that data segment. -/
theorem claim4_v4_rtt_and_karn_witness :
    100 ∈ flowV4Seen.seen_seqs ∧
    (rttAnalyzerProcess flowV4Seen (dataSeg true 1 100 false 10)).unacked_packets =
      flowV4Seen.unacked_packets :=
  ⟨by decide,
   claim4_v4_rtt_and_karn.2 flowV4Seen (dataSeg true 1 100 false 10) (by decide)⟩

/-- C4 counterexample: in the `analyze_pcap` loop of
`analyze_and_generate_report.py` a retransmitted copy of the data segment
re-registers the pending-ACK entry for 150 (with its own timestamp 1.2 s),
and the second ACK of 150 then seeds a second RTT sample — two samples
where Karn's rule permits at most one. -/
theorem claim4_report_ignores_karn :
    dlookup (reportUnackedAt (analyzeRun (rttRetransStream.take 3)) (epA, epB))
      150 = some (6 / 5) ∧
    (reportFlowAt (analyzeRun rttRetransStream) (epA, epB)).rtt_samples =
      [1 / 20, 1 / 20] := by
  constructor <;>
    norm_num [analyzeRun, analyzeStep, reportUpdateFlow, reportFlowAt,
      reportUnackedAt, reportUpdateUnacked, fmGet, fmUpdate, ulistGet,
      ulistUpdate, dlookup, derase, dinsert, dmem, secondLast, initFMReport,
      dataSeg, ackSeg, epA, epB, rttRetransStream, List.foldl, List.find?,
      List.take, RTO_HEURISTIC_THRESH]

/-- Helper: removing one key from a dict leaves every other key's lookup
unchanged. -/
theorem dlookup_derase_ne (d : List (ℕ × ℚ)) (k k' : ℕ) (h : k' ≠ k) :
    dlookup (derase d k) k' = dlookup d k' := by
  induction d with
  | nil => rfl
  | cons p t ih =>
    by_cases hak : p.1 = k
    · have hd : derase (p :: t) k = derase t k := by
        simp [derase, List.filter_cons, hak]
      have hl : dlookup (p :: t) k' = dlookup t k' := by
        have : ¬ p.1 = k' := fun hh => h (hh ▸ hak ▸ rfl)
        simp [dlookup, List.find?_cons, this]
      rw [hd, ih, hl]
    · have hd : derase (p :: t) k = p :: derase t k := by
        simp [derase, List.filter_cons, hak]
      rw [hd]
      by_cases hak' : p.1 = k'
      · simp [dlookup, List.find?_cons, hak']
      · simp only [dlookup, List.find?_cons] at *
        simp [hak', ih]

/-- Helper: removing an absent key is a no-op. -/
theorem derase_eq_of_not_dmem (d : List (ℕ × ℚ)) (k : ℕ)
    (h : dmem d k = false) : derase d k = d := by
  induction d with
  | nil => rfl
  | cons p t ih =>
    by_cases hak : p.1 = k
    · exfalso
      simp [dmem, dlookup, List.find?_cons, hak] at h
    · have ht : dmem t k = false := by
        simpa [dmem, dlookup, List.find?_cons, hak] using h
      have hc : derase (p :: t) k = p :: derase t k := by
        simp [derase, List.filter_cons, hak]
      rw [hc, ih ht]

/-- Helper: reading a pending-ACK dict right after its own defaultdict
update returns the updated dict. -/
theorem ulistGet_update_self (m : List (DKey × List (ℕ × ℚ))) (k : DKey)
    (f : List (ℕ × ℚ) → List (ℕ × ℚ)) :
    ulistGet (ulistUpdate m k f) k = f (ulistGet m k) := by
  induction m with
  | nil => simp [ulistGet, ulistUpdate]
  | cons p t ih =>
    obtain ⟨k', v⟩ := p
    by_cases hk : k' = k
    · simp [ulistGet, ulistUpdate, hk]
    · simp [ulistGet, ulistUpdate, hk, ih]

/-- Helper: a flow-table update does not touch the pending-ACK dicts. -/
theorem reportUnackedAt_updateFlow (st : ReportState) (k k' : DKey)
    (f : FMReport → FMReport) :
    reportUnackedAt (reportUpdateFlow st k f) k' = reportUnackedAt st k' := rfl

/-- C5 (amended): when a pure ACK segment is processed by the
`analyze_pcap` loop, the opposite direction's pending-ACK dict loses at
most the single entry whose key equals the segment's acknowledgment
number; entries with keys strictly below the acknowledgment number are
not purged — their lookups are unchanged.  (The cumulative purge described
by the claim is not implemented.) -/
theorem claim5_ack_removes_only_exact_key (st : ReportState) (g : Seg)
    (hack : g.ackFlag = true) (hlen : g.payloadLen = 0) :
    reportUnackedAt (analyzeStep st g) (g.dst, g.src) =
      derase (reportUnackedAt st (g.dst, g.src)) g.ack ∧
    ∀ k : ℕ, k ≠ g.ack →
      dlookup (reportUnackedAt (analyzeStep st g) (g.dst, g.src)) k =
        dlookup (reportUnackedAt st (g.dst, g.src)) k := by
  have hmain : reportUnackedAt (analyzeStep st g) (g.dst, g.src) =
      derase (reportUnackedAt st (g.dst, g.src)) g.ack := by
    unfold analyzeStep
    dsimp only
    rw [hlen]
    simp only [hack, eq_self_iff_true, true_and, reportUnackedAt_updateFlow,
      lt_irrefl, if_false]
    by_cases hd : dmem (reportUnackedAt st (g.dst, g.src)) g.ack = true
    · rw [if_pos hd]
      split_ifs <;>
        simp [reportUnackedAt, reportUpdateUnacked, reportUpdateFlow,
          ulistGet_update_self]
    · have hd' : dmem (reportUnackedAt st (g.dst, g.src)) g.ack = false := by
        simpa using hd
      rw [if_neg hd, derase_eq_of_not_dmem _ _ hd']
      split_ifs <;> rfl
  refine ⟨hmain, fun k hk => ?_⟩
  rw [hmain, dlookup_derase_ne _ _ _ hk]

/-- C5 witness: the amended statement instantiated on the state after the
two data segments of `staleAckStream` and the cumulative ACK of 250. -/
theorem claim5_ack_removes_only_exact_key_witness :
    cumAckSeg.ackFlag = true ∧ cumAckSeg.payloadLen = 0 ∧
    reportUnackedAt (analyzeStep stTwoData cumAckSeg)
        (cumAckSeg.dst, cumAckSeg.src) =
      derase (reportUnackedAt stTwoData (cumAckSeg.dst, cumAckSeg.src))
        cumAckSeg.ack :=
  ⟨rfl, rfl, (claim5_ack_removes_only_exact_key stTwoData cumAckSeg rfl rfl).1⟩

/-- C5 counterexample: after the run data(150 expected), data(250 expected),
ACK 250, the entry with key 150 — strictly below the processed
acknowledgment number 250 — is still in the pending-ACK dict, so the
claimed purge of all keys below the cumulative ACK does not happen. -/
theorem claim5_stale_entry_survives :
    reportUnackedAt (analyzeRun staleAckStream) (epA, epB) = [(150, 0)] ∧
    150 < 250 := by
  refine ⟨?_, by decide⟩
  norm_num [analyzeRun, analyzeStep, reportUpdateFlow, reportFlowAt,
    reportUnackedAt, reportUpdateUnacked, fmGet, fmUpdate, ulistGet,
    ulistUpdate, dlookup, derase, dinsert, dmem, secondLast, initFMReport,
    dataSeg, ackSeg, epA, epB, staleAckStream, List.foldl, List.find?,
    RTO_HEURISTIC_THRESH]

/-- Helper: the v9 bookkeeping/handshake section touches neither the RTT
samples, the sequence tracker, the retransmission counters, nor the
zero-window count. -/
theorem v9Pre_fields (f : FlowV9) (g : Seg) :
    (v9Pre f g).rtt_samples = f.rtt_samples ∧
    (v9Pre f g).seq_tracker = f.seq_tracker ∧
    (v9Pre f g).retrans_rto = f.retrans_rto ∧
    (v9Pre f g).retrans_fast = f.retrans_fast ∧
    (v9Pre f g).zero_win_events = f.zero_win_events := by
  unfold v9Pre
  dsimp only
  split_ifs <;> exact ⟨rfl, rfl, rfl, rfl, rfl⟩

/-- Helper: the v9 zero-window section does not touch the retransmission
counters. -/
theorem v9ZeroWin_retrans (f : FlowV9) (g : Seg) :
    (v9ZeroWin f g).retrans_rto = f.retrans_rto ∧
    (v9ZeroWin f g).retrans_fast = f.retrans_fast := by
  unfold v9ZeroWin
  split_ifs <;> exact ⟨rfl, rfl⟩

/-- Helper: the v9 retransmission section does not touch the zero-window
count. -/
theorem v9Retrans_zero_win (f : FlowV9) (g : Seg) :
    (v9Retrans f g).zero_win_events = f.zero_win_events := by
  unfold v9Retrans
  split
  · split
    · dsimp only
      split_ifs <;> rfl
    · rfl
  · rfl

/-- Helper: the classification rule of the v9 retransmission section, in
max form — timeout iff the delta from the first observation of that start
seq exceeds both the 0.2 s floor and twice the baseline. -/
theorem v9Retrans_rule (f : FlowV9) (g : Seg) (orig : ℚ)
    (hp : 0 < g.payloadLen) (ht : dlookup f.seq_tracker g.seq = some orig) :
    ((v9Retrans f g).retrans_rto = f.retrans_rto + 1 ↔
      max (MIN_RTO_MS / 1000) (v9baseline f * RTO_THRESHOLD_MULTIPLIER) <
        g.ts - orig) ∧
    ((v9Retrans f g).retrans_fast = f.retrans_fast + 1 ↔
      ¬ max (MIN_RTO_MS / 1000) (v9baseline f * RTO_THRESHOLD_MULTIPLIER) <
        g.ts - orig) := by
  unfold v9Retrans
  rw [if_pos hp, ht]
  dsimp only
  by_cases hb : avg_rtt_ms f / 1000 = 0 <;>
    simp only [v9baseline, hb, eq_self_iff_true, if_true, if_false] <;>
    split_ifs with hc <;>
    dsimp only <;>
    first
      | exact ⟨iff_of_true rfl (max_lt_iff.mpr ⟨hc.2, hc.1⟩),
          iff_of_false (by omega)
            (not_not_intro (max_lt_iff.mpr ⟨hc.2, hc.1⟩))⟩
      | exact ⟨iff_of_false (by omega)
            (fun hm => hc ⟨(max_lt_iff.mp hm).2, (max_lt_iff.mp hm).1⟩),
          iff_of_true rfl
            (fun hm => hc ⟨(max_lt_iff.mp hm).2, (max_lt_iff.mp hm).1⟩)⟩

/-- C6 (amended): in `pcap_analyzer_v9.py`, a retransmission (payload
segment whose start seq is already in `seq_tracker`) is classified as a
timeout-retransmission exactly when `delta` exceeds
`max(MIN_RTO_MS/1000, baseline × RTO_THRESHOLD_MULTIPLIER)`, where `delta`
is measured from the *first observation of that start seq* (not from the
flow's last observation), and `baseline` is the flow's average RTT as soon
as *one* sample exists (not three), with fallback 0.1 s; otherwise it is a
fast-retransmission. -/
theorem claim6_v9_timeout_rule (f : FlowV9) (g : Seg) (orig : ℚ)
    (hp : 0 < g.payloadLen) (ht : dlookup f.seq_tracker g.seq = some orig) :
    ((processV9 f g).retrans_rto = f.retrans_rto + 1 ↔
      max (MIN_RTO_MS / 1000) (v9baseline f * RTO_THRESHOLD_MULTIPLIER) <
        g.ts - orig) ∧
    ((processV9 f g).retrans_fast = f.retrans_fast + 1 ↔
      ¬ max (MIN_RTO_MS / 1000) (v9baseline f * RTO_THRESHOLD_MULTIPLIER) <
        g.ts - orig) := by
  have hpre := v9Pre_fields f g
  have hbase : v9baseline (v9Pre f g) = v9baseline f := by
    unfold v9baseline avg_rtt_ms
    rw [hpre.1]
  have hzw := v9ZeroWin_retrans (v9Retrans (v9Pre f g) g) g
  have hrule := v9Retrans_rule (v9Pre f g) g orig hp (by rw [hpre.2.1, ht])
  rw [hpre.2.2.1, hpre.2.2.2.1, hbase] at hrule
  unfold processV9
  constructor
  · rw [hzw.1]
    exact hrule.1
  · rw [hzw.2]
    exact hrule.2

/-- C6 witness: the amended classification rule instantiated on a flow that
saw seq 100 at t = 0 and its retransmitted copy at t = 1 (classified as a
timeout, since 1 > max(0.2, 2 × 0.1)). -/
theorem claim6_v9_timeout_rule_witness :
    0 < (dataSeg true 1 100 false 10).payloadLen ∧
    dlookup flowV9Seen.seq_tracker (dataSeg true 1 100 false 10).seq =
      some 0 ∧
    ((processV9 flowV9Seen (dataSeg true 1 100 false 10)).retrans_rto =
        flowV9Seen.retrans_rto + 1 ↔
      max (MIN_RTO_MS / 1000)
          (v9baseline flowV9Seen * RTO_THRESHOLD_MULTIPLIER) <
        (dataSeg true 1 100 false 10).ts - 0) :=
  ⟨by decide, by norm_num [flowV9Seen, dlookup, dataSeg, List.find?],
   (claim6_v9_timeout_rule flowV9Seen (dataSeg true 1 100 false 10) 0
      (by decide)
      (by norm_num [flowV9Seen, dlookup, dataSeg, List.find?])).1⟩

/-- C6 counterexample: on the stream (seq 100 at t = 0, seq 300 at t = 5.0,
retransmitted seq 100 at t = 5.1) the v9 engine counts a
timeout-retransmission — `delta` is 5.1 s measured from the first
observation of seq 100 — while the claim's rule (delta measured from the
last observation on the flow, 0.1 s, with zero RTT samples) classifies it
as fast. -/
theorem claim6_code_disagrees_with_claimed_rule :
    (runFlowV9 rtoClassStream).retrans_rto = 1 ∧
    (runFlowV9 rtoClassStream).retrans_fast = 0 ∧
    specTimeoutClass ((51 : ℚ) / 10 - 5) [] = false := by
  refine ⟨?_, ?_, ?_⟩ <;>
    norm_num [runFlowV9, processV9, v9Pre, v9Retrans, v9ZeroWin, initFlowV9,
      avg_rtt_ms, dlookup, derase, dinsert, dataSeg, epA, epB, rtoClassStream,
      List.foldl, List.find?, MIN_RTO_MS, RTO_THRESHOLD_MULTIPLIER,
      specTimeoutClass, listMean]

/-- Helper: the v10 flag section does not touch the zero-window counter. -/
theorem v10Flags_zero_wins (f : FlowV10) (g : Seg) :
    (v10Flags f g).zero_wins = f.zero_wins := by
  unfold v10Flags
  dsimp only
  split_ifs <;> rfl

/-- Helper: the v10 retransmission section does not touch the zero-window
counter. -/
theorem v10Retrans_zero_wins (f : FlowV10) (dir : ℕ) (g : Seg) :
    (v10Retrans f dir g).zero_wins = f.zero_wins := by
  unfold v10Retrans setNextSeq setUnackedSeg unackedSegAt
  dsimp only
  split_ifs <;> rfl

/-- Helper: the v10 RTT section does not touch the zero-window counter. -/
theorem v10Rtt_zero_wins (f : FlowV10) (dir : ℕ) (g : Seg) :
    (v10Rtt f dir g).zero_wins = f.zero_wins := by
  unfold v10Rtt
  by_cases ha : g.ackFlag = true
  · rw [if_pos ha]
    cases hd : dlookup (unackedSegAt f (1 - dir)) g.ack with
    | none => rfl
    | some v =>
      dsimp only
      unfold setUnackedSeg
      split_ifs <;> rfl
  · rw [if_neg ha]

/-- C7 (amended): `pcap_analyzer_v10.py` increments the zero-window counter
exactly when the advertised window is 0 and the segment does not carry
RST — in particular a RST with window 0 never increments it there — while
`pcap_analyzer_v9.py` increments its zero-window counter whenever the
window is 0, RST segments included. -/
theorem claim7_zero_window_rst_exclusion :
    (∀ (f : FlowV10) (dir : ℕ) (g : Seg),
      (analyzePacketV10 f dir g).zero_wins =
        f.zero_wins + (if g.win = 0 ∧ ¬g.rstFlag then 1 else 0)) ∧
    (∀ (f : FlowV9) (g : Seg),
      (processV9 f g).zero_win_events =
        f.zero_win_events + (if g.win = 0 then 1 else 0)) := by
  constructor
  · intro f dir g
    unfold analyzePacketV10
    rw [v10Rtt_zero_wins, v10Retrans_zero_wins]
    unfold v10ZeroWin
    split_ifs with h
    · dsimp only
      rw [v10Flags_zero_wins]
    · rw [v10Flags_zero_wins]
      omega
  · intro f g
    unfold processV9 v9ZeroWin
    split_ifs with h
    · dsimp only
      rw [v9Retrans_zero_win, (v9Pre_fields f g).2.2.2.2]
    · rw [v9Retrans_zero_win, (v9Pre_fields f g).2.2.2.2]
      omega

/-- C7 counterexample: a RST segment with window 0 does increment the
zero-window counter of the v9 engine (and leaves v10's at 0), so the
claimed universal RST exclusion fails on the cited v9 code. -/
theorem claim7_v9_counts_rst_zero_window :
    (processV9 initFlowV9 rstZeroWinSeg).zero_win_events = 1 ∧
    (analyzePacketV10 initFlowV10 0 rstZeroWinSeg).zero_wins = 0 := by
  constructor
  · norm_num [processV9, v9Pre, v9Retrans, v9ZeroWin, initFlowV9,
      rstZeroWinSeg, dlookup, List.find?]
  · norm_num [analyzePacketV10, v10Flags, v10ZeroWin, v10Retrans, v10Rtt,
      initFlowV10, rstZeroWinSeg, dlookup, derase, dinsert, unackedSegAt,
      setUnackedSeg, nextSeqAt, setNextSeq, avgRttV10, List.find?]

/-- Helper: adding the zero aggregate on the right is the identity. -/
theorem addIpAgg_zero (a : IpAgg) : addIpAgg a zeroIpAgg = a := by
  cases a
  simp [addIpAgg, zeroIpAgg]

/-- Helper: adding the zero aggregate on the left is the identity. -/
theorem zero_addIpAgg (a : IpAgg) : addIpAgg zeroIpAgg a = a := by
  cases a
  simp [addIpAgg, zeroIpAgg]

/-- Helper: componentwise addition of aggregates is associative. -/
theorem addIpAgg_assoc (a b c : IpAgg) :
    addIpAgg (addIpAgg a b) c = addIpAgg a (addIpAgg b c) := by
  cases a
  cases b
  cases c
  simp [addIpAgg, add_assoc]

/-- Helper: reading the aggregation map after a defaultdict update. -/
theorem aggGet_aggUpdate (m : IpAggMap) (ip j : ℕ) (f : IpAgg → IpAgg) :
    aggGet (aggUpdate m ip f) j =
      if j = ip then f (aggGet m ip) else aggGet m j := by
  induction m with
  | nil =>
    by_cases h : j = ip
    · subst h
      simp [aggUpdate, aggGet]
    · have h2 : ¬ ip = j := fun hh => h hh.symm
      simp [aggUpdate, aggGet, h, h2]
  | cons p t ih =>
    obtain ⟨k, a⟩ := p
    by_cases hk : k = ip
    · subst hk
      by_cases hj : k = j
      · subst hj
        simp [aggUpdate, aggGet]
      · have hji : ¬ j = k := fun hh => hj hh.symm
        simp [aggUpdate, aggGet, hj, hji]
    · by_cases hj : k = j
      · subst hj
        simp [aggUpdate, aggGet, hk]
      · simp [aggUpdate, aggGet, hk, hj, ih]

/-- Helper: one `generate_plot` step read back at its own source IP. -/
theorem aggGet_gpStep_self (m : IpAggMap) (r : FlowRow) :
    aggGet (gpStep m r) r.src_ip =
      addIpAgg (aggGet m r.src_ip) ⟨r.p_client, r.p_network, r.p_server, 1⟩ := by
  unfold gpStep
  rw [aggGet_aggUpdate, if_pos rfl]
  cases hag : aggGet m r.src_ip
  simp [addIpAgg]

/-- Helper: one `generate_plot` step read back at any other IP. -/
theorem aggGet_gpStep_other (m : IpAggMap) (r : FlowRow) (ip : ℕ)
    (h : ¬ ip = r.src_ip) : aggGet (gpStep m r) ip = aggGet m ip := by
  unfold gpStep
  rw [aggGet_aggUpdate, if_neg h]

/-- Helper: the per-IP sums over a cons whose head matches the IP. -/
theorem sumForIp_cons_self (r : FlowRow) (rest : List FlowRow) (ip : ℕ)
    (h : r.src_ip = ip) :
    sumForIp (r :: rest) ip =
      addIpAgg ⟨r.p_client, r.p_network, r.p_server, 1⟩ (sumForIp rest ip) := by
  simp [sumForIp, List.filter_cons, h, addIpAgg]
  omega

/-- Helper: the per-IP sums over a cons whose head does not match. -/
theorem sumForIp_cons_other (r : FlowRow) (rest : List FlowRow) (ip : ℕ)
    (h : ¬ r.src_ip = ip) : sumForIp (r :: rest) ip = sumForIp rest ip := by
  simp [sumForIp, List.filter_cons, h]

/-- Helper: folding the `generate_plot` loop over any starting map adds, per
IP, exactly the componentwise sums of the rows with that source IP. -/
theorem aggGet_gpFold (rows : List FlowRow) (m : IpAggMap) (ip : ℕ) :
    aggGet (rows.foldl gpStep m) ip = addIpAgg (aggGet m ip) (sumForIp rows ip) := by
  induction rows generalizing m with
  | nil =>
    cases hag : aggGet m ip
    simp [sumForIp, addIpAgg, hag]
  | cons r rest ih =>
    rw [List.foldl_cons, ih]
    by_cases h : ip = r.src_ip
    · subst h
      rw [aggGet_gpStep_self, sumForIp_cons_self r rest _ rfl]
      exact addIpAgg_assoc _ _ _
    · rw [aggGet_gpStep_other m r ip h,
        sumForIp_cons_other r rest ip (fun hh => h hh.symm)]

/-- C9 (amended): the per-IP aggregation of `generate_plot` is a pure
function of its input rows — every call folds a freshly created empty
defaultdict, and for every IP the result equals the componentwise sums
(and count) over exactly the rows with that source IP, so re-running it
over the same rows necessarily reproduces identical `IpAggregate`
results.  The aggregation loop of `analyze_tcp_dpkt_full_trend.py`, by
contrast, accumulates into a module-level dict (see the
counterexample). -/
theorem claim9_generate_plot_agg_pure :
    ∀ (rows : List FlowRow) (ip : ℕ),
      aggGet (generate_plot_agg rows) ip = sumForIp rows ip := by
  intro rows ip
  have h := aggGet_gpFold rows [] ip
  unfold generate_plot_agg
  rw [h, show aggGet [] ip = zeroIpAgg from rfl, zero_addIpAgg]

/-- C9 counterexample: executing the full-trend source-IP aggregation loop
a second time over the same rows — its `ip_src_stats` dict is module-level
state, initialized once — yields a different (doubled) aggregate than the
first execution, refuting idempotence for that cited aggregator. -/
theorem claim9_full_trend_accumulates :
    aggGet (ftSrcLoop (ftSrcLoop [] oneFlowRow) oneFlowRow) 1 ≠
      aggGet (ftSrcLoop [] oneFlowRow) 1 := by
  norm_num [ftSrcLoop, ftSrcStep, aggUpdate, aggGet, zeroIpAgg, oneFlowRow,
    List.foldl]

end FrameAnalysis
